import Mathlib

/-!
Shallow embedding of the otolith growth-ring detection and
age-estimation pipeline (`OtolithAnalyzer` in `backend/app/services.py`).

External image-processing results (cv2 decode, `HoughCircles`, contour
extraction, `fitEllipse`) are inputs of the embedded functions: the
orchestrator takes the decoded image shape as `Option ImgShape` (`none`
models `cv2.imdecode` returning `None`), the circle detector output as
`Option (List (ℤ × ℤ × ℤ))`, and the contour list as `List Contour`.
All in-repository logic (ring construction and sorting, spacing
statistics, age estimation, growth-pattern classification, confidence
scoring, recommendations, result assembly, error containment) is
translated directly from the source.

Python floats are modelled as ℚ.  The one exception is the value of
`np.std`, which is the real square root of the rational population
variance: branch tests of the form `np.std s / a < c` are expressed by
the equivalent squared rational comparison (see `stdDivLt_iff_sqrt`
below), and the `growth_consistency` value, which genuinely needs the
square root, is a real number built with `Real.sqrt`.

Python's `random.randint(-1, 1)` in the age estimator is modelled by an
explicit integer parameter `jitter`; every theorem about that function
quantifies over it.
-/

namespace Otolith

/-- Python's `round(x, 2)` on a rational value: round to two decimal
digits.  Mathlib's `round` is round-half-up while Python uses
round-half-even; the two agree away from exact half-way points, and no
statement below evaluates at a half-way point. -/
def round2 (x : ℚ) : ℚ := (round (100 * x) : ℚ) / 100

/-- The same two-decimal rounding on a real value (used for the
`growth_consistency` field, whose computation involves `np.std`). -/
noncomputable def round2R (x : ℝ) : ℝ := (round (100 * x) : ℝ) / 100

/-- Python's `int(x)` applied to a float: truncation toward zero. -/
def pyInt (x : ℚ) : ℤ := if x < 0 then ⌈x⌉ else ⌊x⌋

/-- Population variance of a list, i.e. `np.std(s) ** 2` (numpy default
`ddof = 0`).  `np.std s` itself is `Real.sqrt (pvar s)`. -/
def pvar (s : List ℚ) : ℚ :=
  if s.length = 0 then 0
  else
    ((s.map fun x => (x - s.sum / s.length) ^ 2).sum) / s.length

/-- The float comparison `np.std(s) / a < c` for a threshold `c > 0`,
reached in the source only with `a ≠ 0`:
for `a < 0` the quotient is `≤ 0 < c`, so the test is true;
for `a = 0` the float quotient is `inf` or `nan` (numpy float division
by zero), and either compares false against `c`;
for `a > 0` the test is equivalent to the rational comparison
`pvar s < c ^ 2 * a ^ 2`, proved in `stdDivLt_iff_sqrt`. -/
def stdDivLt (s : List ℚ) (a c : ℚ) : Bool :=
  if a < 0 then true
  else if a = 0 then false
  else decide (pvar s < c ^ 2 * a ^ 2)

/-- One detected growth ring: the dict built in `detect_growth_rings`
(`center_x`, `center_y`, `radius` are `int(...)` casts of the rounded
Hough circle, `area = round(3.14159 * r * r, 2)`). -/
structure GrowthRing where
  center_x : ℤ
  center_y : ℤ
  radius : ℤ
  area : ℚ
deriving DecidableEq

/-- The sorting key relation of `rings.sort(key=lambda x: x['radius'])`. -/
def ringLe (a b : GrowthRing) : Prop := a.radius ≤ b.radius

instance : DecidableRel ringLe := fun a b =>
  inferInstanceAs (Decidable (a.radius ≤ b.radius))

instance : IsTotal GrowthRing ringLe := ⟨fun a b => le_total a.radius b.radius⟩

instance : IsTrans GrowthRing ringLe := ⟨fun _ _ _ h1 h2 => le_trans h1 h2⟩

/-- Build one ring dict from a Hough circle `(x, y, r)`. -/
def mkRing (c : ℤ × ℤ × ℤ) : GrowthRing :=
  ⟨c.1, c.2.1, c.2.2, round2 (314159 / 100000 * (c.2.2 : ℚ) * (c.2.2 : ℚ))⟩

/-- `OtolithAnalyzer.detect_growth_rings`.  The cv2 call is an oracle:
`none` models `HoughCircles` returning `None` (and likewise the
`except` branch, which also yields an empty ring list); `some cs`
models the rounded integer circles.  The ring dicts are then sorted
ascending by radius; Python's stable `list.sort` on the radius key is
extensionally any stable sort by `ringLe`, here `insertionSort`. -/
def detect_growth_rings (circles : Option (List (ℤ × ℤ × ℤ))) : List GrowthRing :=
  List.insertionSort ringLe ((circles.getD []).map mkRing)

/-- The measurements dict of `calculate_otolith_measurements`.
The source dict key for the `aspect` field is named `aspect_ratio`. -/
structure Measurements where
  area : ℚ
  perimeter : ℚ
  major_axis : ℚ
  minor_axis : ℚ
  aspect : ℚ
  circularity : ℚ
  center : ℚ × ℚ
  orientation : ℚ
deriving DecidableEq

/-- One external contour as the cv2 oracle reports it: its number of
boundary points (`len(contour)`), `cv2.contourArea`, `cv2.arcLength`,
and the `cv2.fitEllipse` result `((cx, cy), (w, h), angle)`. -/
structure Contour where
  npoints : ℕ
  area : ℚ
  perimeter : ℚ
  ellipse : (ℚ × ℚ) × (ℚ × ℚ) × ℚ
deriving DecidableEq

/-- `max(contours, key=cv2.contourArea)`: Python's `max` keeps the first
of several maximal elements, so later contours replace the current best
only on a strictly larger area. -/
def selectLargest : List Contour → Option Contour
  | [] => none
  | c :: cs => some (cs.foldl (fun best x => if best.area < x.area then x else best) c)

/-- The fallback dict returned when no contour is found, when the
largest contour has fewer than 5 points, or on an exception.  Note
`aspect_ratio` is `1` in the source, not `0`. -/
def fallbackMeasurements : Measurements :=
  ⟨0, 0, 0, 0, 1, 0, (0, 0), 0⟩

/-- `OtolithAnalyzer.calculate_otolith_measurements` on the oracle
contour list (the `except` branch returns the same fallback dict as the
no-contour path and is collapsed into it). -/
def calculate_otolith_measurements (contours : List Contour) : Measurements :=
  match selectLargest contours with
  | none => fallbackMeasurements
  | some lc =>
    if 5 ≤ lc.npoints then
      let major := max lc.ellipse.2.1.1 lc.ellipse.2.1.2
      let minor := min lc.ellipse.2.1.1 lc.ellipse.2.1.2
      { area := round2 lc.area
        perimeter := round2 lc.perimeter
        major_axis := round2 major
        minor_axis := round2 minor
        aspect := round2 (if 0 < minor then major / minor else 1)
        circularity := round2 (if 0 < lc.perimeter then
            4 * (314159 / 100000) * lc.area / (lc.perimeter * lc.perimeter) else 0)
        center := (round2 lc.ellipse.1.1, round2 lc.ellipse.1.2)
        orientation := round2 lc.ellipse.2.2 }
    else fallbackMeasurements

/-- Consecutive radius differences `rings[i].radius - rings[i-1].radius`. -/
def ringSpacings (rings : List GrowthRing) : List ℚ :=
  (rings.zip rings.tail).map fun p => ((p.2.radius : ℚ) - (p.1.radius : ℚ))

/-- Arithmetic mean of the consecutive radius differences. -/
def avgSpacing (rings : List GrowthRing) : ℚ :=
  (ringSpacings rings).sum / ((ringSpacings rings).length : ℚ)

/-- `OtolithAnalyzer.estimate_age_from_rings`.  `jitter` models the
`random.randint(-1, 1)` draw of the inconsistent-spacing branch (the
model quantifies over all of ℤ, a superset of the drawn values).
The empty-rings fallback is `max(1, int(major_axis / 50))`, Python
`int` being truncation.  The condition `spacing_cv < 0.3`
(`np.std(spacings) / avg < 3/10`, with `avg > 0` guaranteed by the
enclosing guard) is expressed through `stdDivLt`. -/
def estimate_age_from_rings (rings : List GrowthRing) (measurements : Measurements)
    (jitter : ℤ) : ℤ :=
  if rings.isEmpty then
    max 1 (pyInt (measurements.major_axis / 50))
  else
    let base : ℤ := rings.length
    let avg : ℚ := if 1 < rings.length then avgSpacing rings else 0
    if 0 < avg then
      if stdDivLt (ringSpacings rings) avg (3 / 10) then base
      else max 1 (base + jitter)
    else max 1 base

/-- The growth-analysis dict.  `ring_spacings` is absent from the
insufficient-data dict, hence an `Option`.  `growth_consistency` is the
one value that needs `np.std` itself and is therefore real. -/
structure GrowthAnalysis where
  growth_pattern : String
  average_ring_spacing : ℚ
  growth_rate : String
  growth_consistency : ℝ
  ring_spacings : Option (List ℚ)

/-- `OtolithAnalyzer.analyze_growth_patterns`.  The function has no
internal exception handler; with exactly one spacing, `spacing_std` is
the int literal `0`, and when additionally `avg_spacing = 0` the
expression `spacing_std / avg_spacing` is an int-by-float-zero division
raising `ZeroDivisionError('float division by zero')`, modelled by the
`Except.error` branch.  (With two or more spacings the std is a numpy
float and division by zero yields `inf`/`nan` without raising; both
compare false against `0.2`, which is what `stdDivLt` returns for
`avg = 0`.)  With at least two rings, `spacings` is nonempty, so the
`headD`/`getLastD` defaults are never consulted. -/
noncomputable def analyze_growth_patterns (rings : List GrowthRing) :
    Except String GrowthAnalysis :=
  if rings.length < 2 then
    .ok ⟨"insufficient_data", 0, "unknown", 0, none⟩
  else
    let spacings := ringSpacings rings
    let avg := avgSpacing rings
    if spacings.length = 1 ∧ avg = 0 then .error "float division by zero"
    else
      .ok ⟨if stdDivLt spacings avg (1 / 5) then "consistent"
           else if spacings.headD 0 * (3 / 2) < spacings.getLastD 0 then "accelerating"
           else if spacings.getLastD 0 < spacings.headD 0 * (7 / 10) then "decelerating"
           else "variable",
           round2 avg,
           if 15 < avg then "fast" else if 8 < avg then "moderate" else "slow",
           if 0 < avg then
             round2R ((1 - Real.sqrt ((pvar spacings : ℚ) : ℝ) / (avg : ℝ)) * 100)
           else 0,
           some (spacings.map round2)⟩

/-- The radius list of a ring list. -/
def radii (rings : List GrowthRing) : List ℤ := rings.map (·.radius)

/-- `OtolithAnalyzer.calculate_confidence`.  `shape` is `image.shape`
of the decoded color image, i.e. `(height, width, 3)`.  All comparisons
are strict, as in the source; the strictly-increasing-radii bonus
requires at least two rings. -/
def calculate_confidence (rings : List GrowthRing) (measurements : Measurements)
    (shape : ℕ × ℕ × ℕ) : ℕ :=
  let c1 : ℕ :=
    if 500 < shape.1 ∧ 500 < shape.2.1 then 20
    else if 200 < shape.1 ∧ 200 < shape.2.1 then 10
    else 0
  let c2 : ℕ :=
    if 0 < rings.length then
      let c := c1 + min 30 (rings.length * 5)
      if 1 < rings.length ∧ List.Chain' (· < ·) (radii rings) then c + 20 else c
    else c1
  let c3 : ℕ := if 1000 < measurements.area then c2 + 15 else c2
  let c4 : ℕ :=
    if 3 / 10 < measurements.circularity ∧ measurements.circularity < 8 / 10 then c3 + 10
    else c3
  min 100 c4

/-- `OtolithAnalyzer.generate_recommendations`. -/
def generate_recommendations (rings : List GrowthRing) (measurements : Measurements)
    (confidence : ℕ) : List String :=
  let recs :=
    (if confidence < 50 then
      ["Low confidence analysis. Consider using higher resolution images."] else []) ++
    (if rings.length < 3 then
      ["Few growth rings detected. Ensure image shows clear otolith cross-section."] else []) ++
    (if measurements.circularity < 3 / 10 then
      ["Irregular otolith shape detected. Verify proper sectioning technique."] else []) ++
    (if measurements.area < 500 then
      ["Small otolith detected. Consider higher magnification for better ring visibility."] else [])
  if recs.isEmpty then ["Good quality analysis. Results appear reliable."] else recs

/-- The `growth_rings` sub-dict of the result. -/
structure GrowthRingsField where
  count : ℕ
  rings_detected : List GrowthRing
  ring_spacing : ℚ

/-- The analysis result dict.  Each of the four return paths of
`analyze_otolith_image` populates a different subset of keys, hence the
`Option` fields; `analysis_score` is present on every path. -/
structure AnalysisResult where
  filename : Option String
  image_dimensions : Option (ℕ × ℕ)
  estimated_age : Option ℤ
  growth_rings : Option GrowthRingsField
  measurements : Option Measurements
  growth_analysis : Option GrowthAnalysis
  confidence_score : Option ℚ
  analysis_score : ℚ
  recommendations : Option (List String)
  error : Option String

/-- Shape of the decoded image: `gray.shape = (height, width)`. -/
structure ImgShape where
  height : ℕ
  width : ℕ

/-- `OtolithAnalyzer.analyze_otolith_image`, the orchestrator.
`libsAvailable = false` models the `ImportError` path (`import cv2`
fails before any other work); `decoded = none` models `cv2.imdecode`
returning `None` on an undecodable buffer.  The only in-scope stage
exception is the `ZeroDivisionError` of `analyze_growth_patterns`,
caught here by the blanket `except Exception` and converted into the
error-shaped dict — the function is total and never propagates a
failure. -/
noncomputable def analyze_otolith_image (libsAvailable : Bool)
    (decoded : Option ImgShape) (circles : Option (List (ℤ × ℤ × ℤ)))
    (contours : List Contour) (filename : String) (jitter : ℤ) : AnalysisResult :=
  if libsAvailable then
    match decoded with
    | none =>
      { filename := none, image_dimensions := none, estimated_age := none,
        growth_rings := none, measurements := none, growth_analysis := none,
        confidence_score := none, analysis_score := 0, recommendations := none,
        error := some "Invalid image format" }
    | some img =>
      let rings := detect_growth_rings circles
      let meas := calculate_otolith_measurements contours
      let age := estimate_age_from_rings rings meas jitter
      match analyze_growth_patterns rings with
      | .error e =>
        { filename := none, image_dimensions := none, estimated_age := some 0,
          growth_rings := none, measurements := none, growth_analysis := none,
          confidence_score := some 0, analysis_score := 0, recommendations := none,
          error := some ("Otolith analysis failed: " ++ e) }
      | .ok ga =>
        let confidence := calculate_confidence rings meas (img.height, img.width, 3)
        { filename := some filename,
          image_dimensions := some (img.width, img.height),
          estimated_age := some age,
          growth_rings := some ⟨rings.length, rings, ga.average_ring_spacing⟩,
          measurements := some meas,
          growth_analysis := some ga,
          confidence_score := some (round2 (confidence : ℚ)),
          analysis_score := round2 (min 100 ((confidence : ℚ) * (6 / 5))),
          recommendations := some (generate_recommendations rings meas confidence),
          error := none }
  else
    { filename := none, image_dimensions := none, estimated_age := some 0,
      growth_rings := none, measurements := none, growth_analysis := none,
      confidence_score := some 0, analysis_score := 0, recommendations := none,
      error := some "Image processing libraries not available. Install opencv-python and Pillow." }

/-- Growth-consistency projection of a growth-analysis outcome (used to
state facts about the `growth_consistency` value; `0` on the error
branch, so a strict negativity statement also certifies the branch). -/
def gcOf : Except String GrowthAnalysis → ℝ
  | .ok ga => ga.growth_consistency
  | .error _ => 0

/-- Growth-pattern projection of a growth-analysis outcome. -/
def patternOf : Except String GrowthAnalysis → String
  | .ok ga => ga.growth_pattern
  | .error _ => ""

/-! Supporting lemmas. -/

/-- The population variance is nonnegative. -/
lemma pvar_nonneg (s : List ℚ) : 0 ≤ pvar s := by
  unfold pvar
  split
  · exact le_refl 0
  · apply div_nonneg
    · apply List.sum_nonneg
      intro x hx
      obtain ⟨y, _, rfl⟩ := List.mem_map.mp hx
      positivity
    · positivity

/-- Justification of the squared comparison inside `stdDivLt`: for a
positive mean and threshold, the rational test agrees exactly with the
real-valued float test `np.std s / a < c`. -/
lemma stdDivLt_iff_sqrt (s : List ℚ) (a c : ℚ) (ha : 0 < a) (hc : 0 < c) :
    stdDivLt s a c = true ↔ Real.sqrt ((pvar s : ℚ) : ℝ) / (a : ℝ) < (c : ℝ) := by
  have ha' : (0 : ℝ) < (a : ℝ) := by exact_mod_cast ha
  have hc' : (0 : ℝ) < (c : ℝ) := by exact_mod_cast hc
  unfold stdDivLt
  rw [if_neg (not_lt.mpr ha.le), if_neg ha.ne']
  rw [div_lt_iff₀ ha', Real.sqrt_lt' (by positivity), decide_eq_true_iff]
  constructor
  · intro h
    have := (Rat.cast_lt (K := ℝ)).mpr h
    push_cast at this ⊢
    nlinarith [this]
  · intro h
    have : ((pvar s : ℚ) : ℝ) < ((c ^ 2 * a ^ 2 : ℚ) : ℝ) := by push_cast; nlinarith [h]
    exact_mod_cast this

/-- Two-decimal rounding is the identity on a rational whose hundredfold
is an integer. -/
lemma round2_eq_self (x : ℚ) (n : ℤ) (h : 100 * x = (n : ℚ)) : round2 x = x := by
  unfold round2
  rw [h, round_intCast, ← h]
  ring

/-- Two-decimal rounding preserves an integer upper bound. -/
lemma round2R_le (x : ℝ) (n : ℤ) (h : x ≤ (n : ℝ)) : round2R x ≤ ((100 * n : ℤ) : ℝ) / 100 := by
  unfold round2R
  have h1 : (100 : ℝ) * x + 1 / 2 ≤ 1 / 2 + ((100 * n : ℤ) : ℝ) := by push_cast; nlinarith
  have h2 : round (100 * x) ≤ (100 * n : ℤ) := by
    rw [round_eq]
    calc ⌊(100 : ℝ) * x + 1 / 2⌋ ≤ ⌊1 / 2 + ((100 * n : ℤ) : ℝ)⌋ := Int.floor_le_floor h1
    _ = ⌊(1 / 2 : ℝ)⌋ + 100 * n := Int.floor_add_int _ _
    _ = 100 * n := by norm_num
  have : ((round ((100 : ℝ) * x) : ℤ) : ℝ) ≤ (((100 * n : ℤ) : ℤ) : ℝ) := by exact_mod_cast h2
  linarith [this]

/-! Concrete inputs used by individual claims.  The age estimator, the
pattern analyzer and the confidence scorer read only the `radius` field
of a ring, so the concrete ring lists fix the radii and leave the other
fields zero. -/

/-- A ring with a given radius. -/
def ringAt (r : ℤ) : GrowthRing := ⟨0, 0, r, 0⟩

/-- Rings at radii 10, 20, 30, 40: perfectly even spacing. -/
def ringsC5 : List GrowthRing := [ringAt 10, ringAt 20, ringAt 30, ringAt 40]

/-- Rings whose spacings are [0, 0, 0, 0, 5]: mean spacing 1, population
standard deviation 2, so the consistency value is negative. -/
def ringsC8 : List GrowthRing :=
  [ringAt 10, ringAt 10, ringAt 10, ringAt 10, ringAt 10, ringAt 15]

/-- Exactly two rings with equal radii: the single spacing is 0. -/
def ringsC10 : List GrowthRing := [ringAt 7, ringAt 7]

/-- A no-ring measurements record with `major_axis = 80`. -/
def measMajor80 : Measurements := { fallbackMeasurements with major_axis := 80 }

/-- A single contour with only 4 boundary points. -/
def contourC9 : Contour := ⟨4, 100, 10, ((0, 0), (0, 0), 0)⟩

/-! Claim theorems. -/

/-- C1: for every byte buffer that does not decode to a valid image
(`decoded = none`, covering also the missing-library path), the
orchestrator returns a result with a non-empty `error` field and
`analysis_score = 0`; being a total function of its oracle inputs, it
lets no exception escape. -/
theorem C1_undecodable_buffer_yields_error_result (libs : Bool)
    (circles : Option (List (ℤ × ℤ × ℤ))) (contours : List Contour)
    (filename : String) (jitter : ℤ) :
    (analyze_otolith_image libs none circles contours filename jitter).error ≠ none ∧
    (analyze_otolith_image libs none circles contours filename jitter).error.getD "" ≠ "" ∧
    (analyze_otolith_image libs none circles contours filename jitter).analysis_score = 0 := by
  cases libs <;> simp [analyze_otolith_image]

/-- C2 counterexample: with no rings and `major_axis = 80`, the code
returns `max(1, int(80 / 50)) = max(1, 1) = 1` (Python `int` truncates),
while the claimed round-to-nearest formula gives
`max(1, round(1.6)) = 2`. -/
theorem C2_counterexample :
    estimate_age_from_rings [] measMajor80 0 = 1 ∧
    estimate_age_from_rings [] measMajor80 0 ≠
      max 1 (round (measMajor80.major_axis / 50)) := by
  have h1 : estimate_age_from_rings [] measMajor80 0 = 1 := by
    simp [estimate_age_from_rings, measMajor80, fallbackMeasurements, pyInt]
    norm_num [Int.floor_eq_iff]
  have h2 : round (measMajor80.major_axis / 50) = 2 := by
    simp [measMajor80, fallbackMeasurements, round_eq]
    norm_num [Int.floor_eq_iff]
  refine ⟨h1, ?_⟩
  rw [h1, h2]
  norm_num

/-- C2 (amended): for every input on which zero rings are detected,
`estimate_age_from_rings` returns `max(1, trunc(major_axis / 50))`,
where `trunc` is Python `int()`'s truncation toward zero (the source
truncates rather than rounding to the nearest integer). -/
theorem C2_amended_zero_rings_age (m : Measurements) (j : ℤ) :
    estimate_age_from_rings [] m j = max 1 (pyInt (m.major_axis / 50)) := by
  simp [estimate_age_from_rings]

/-- C3: for every ring list (including the empty list), every
measurements record and every jitter draw (the random-jitter branch is
quantified over all integers, a superset of the drawn values), the
estimated age is at least 1. -/
theorem C3_age_at_least_one (rings : List GrowthRing) (m : Measurements) (j : ℤ) :
    1 ≤ estimate_age_from_rings rings m j := by
  unfold estimate_age_from_rings
  by_cases h : rings.isEmpty
  · simp [h]
  · have hlen : rings.length ≠ 0 := by
      simpa [List.isEmpty_iff, List.length_eq_zero] using h
    simp only [h, Bool.false_eq_true, if_false]
    split_ifs <;> first
      | exact le_max_left 1 _
      | exact_mod_cast Nat.one_le_iff_ne_zero.mpr hlen

/-- C4: for every circle-detector output, the ring list returned by
`detect_growth_rings` is sorted ascending by radius, and hence so is
the `rings_detected` list of every result the orchestrator produces
(an absent `growth_rings` field contributes the trivially sorted empty
list). -/
theorem C4_rings_sorted_by_radius (libs : Bool) (decoded : Option ImgShape)
    (circles : Option (List (ℤ × ℤ × ℤ))) (contours : List Contour)
    (filename : String) (jitter : ℤ) :
    List.Sorted ringLe (detect_growth_rings circles) ∧
    List.Sorted ringLe
      (((analyze_otolith_image libs decoded circles contours filename
          jitter).growth_rings.map GrowthRingsField.rings_detected).getD []) := by
  refine ⟨List.sorted_insertionSort ringLe _, ?_⟩
  cases libs
  · simp [analyze_otolith_image]
  · cases decoded with
    | none => simp [analyze_otolith_image]
    | some img =>
      cases hg : analyze_growth_patterns (detect_growth_rings circles) with
      | error e => simp [analyze_otolith_image, hg]
      | ok ga =>
        simpa [analyze_otolith_image, hg] using
          List.sorted_insertionSort ringLe _

/-- C5: for rings at radii [10, 20, 30, 40] (uniform spacing,
coefficient of variation 0), the age estimate is 4 — for every
measurements record and every jitter draw, since the consistent-spacing
branch is taken — and the growth pattern is classified "consistent". -/
theorem C5_even_spacing_age_and_pattern (m : Measurements) (j : ℤ) :
    estimate_age_from_rings ringsC5 m j = 4 ∧
    patternOf (analyze_growth_patterns ringsC5) = "consistent" := by
  constructor
  · simp [estimate_age_from_rings, ringsC5, ringAt, avgSpacing, ringSpacings,
      stdDivLt, pvar]
    norm_num
  · simp [patternOf, analyze_growth_patterns, ringsC5, ringAt, avgSpacing,
      ringSpacings, stdDivLt, pvar]
    norm_num

/-- Modelled from the claim's words (C6): resolution bonuses with
non-strict thresholds and a strictly-increasing bonus with no
minimum-ring-count requirement. -/
def confidenceClaimed (rings : List GrowthRing) (measurements : Measurements)
    (shape : ℕ × ℕ × ℕ) : ℕ :=
  min 100
    ((if 500 ≤ shape.1 ∧ 500 ≤ shape.2.1 then 20
      else if 200 ≤ shape.1 ∧ 200 ≤ shape.2.1 then 10 else 0) +
     min 30 (rings.length * 5) +
     (if List.Chain' (· < ·) (radii rings) then 20 else 0) +
     (if 1000 < measurements.area then 15 else 0) +
     (if 3 / 10 < measurements.circularity ∧ measurements.circularity < 8 / 10
      then 10 else 0))

/-- The confidence score as a flat clamped sum, with the source's
actual conditions: strict resolution thresholds and an increasing-radii
bonus only for at least two rings. -/
def confidenceAmended (rings : List GrowthRing) (measurements : Measurements)
    (shape : ℕ × ℕ × ℕ) : ℕ :=
  min 100
    ((if 500 < shape.1 ∧ 500 < shape.2.1 then 20
      else if 200 < shape.1 ∧ 200 < shape.2.1 then 10 else 0) +
     min 30 (rings.length * 5) +
     (if 1 < rings.length ∧ List.Chain' (· < ·) (radii rings) then 20 else 0) +
     (if 1000 < measurements.area then 15 else 0) +
     (if 3 / 10 < measurements.circularity ∧ measurements.circularity < 8 / 10
      then 10 else 0))

/-- C6 counterexample: on a 500×500 image with no rings, the code takes
the strict comparison 500 > 500 to be false and awards only the
10-point acceptable-resolution bonus (total 10), while the claim's
at-least-500 reading plus its unconditional strictly-increasing bonus
(vacuously true for zero rings) totals 40. -/
theorem C6_counterexample :
    calculate_confidence [] fallbackMeasurements (500, 500, 3) = 10 ∧
    confidenceClaimed [] fallbackMeasurements (500, 500, 3) = 40 ∧
    calculate_confidence [] fallbackMeasurements (500, 500, 3) ≠
      confidenceClaimed [] fallbackMeasurements (500, 500, 3) := by
  refine ⟨?_, ?_, ?_⟩ <;>
    norm_num [calculate_confidence, confidenceClaimed, fallbackMeasurements, radii]

/-- C6 (amended): for every ring list, measurements record and image
shape, the confidence equals the clamped sum of: 20 if width and height
each exceed 500, else 10 if both exceed 200; plus min(30, ringCount·5);
plus 20 if there are at least two rings and the radii are strictly
increasing; plus 15 if area > 1000; plus 10 if circularity is strictly
between 0.3 and 0.8. -/
theorem C6_amended_confidence_formula (rings : List GrowthRing)
    (measurements : Measurements) (shape : ℕ × ℕ × ℕ) :
    calculate_confidence rings measurements shape =
      confidenceAmended rings measurements shape := by
  unfold calculate_confidence confidenceAmended
  by_cases hr : 0 < rings.length
  · simp only [hr, if_true]
    split_ifs <;> omega
  · have h0 : rings.length = 0 := by omega
    simp only [hr, if_false, h0]
    split_ifs <;> omega

/-- C7: on every path — the undecodable-buffer path, the
missing-library path, the contained-exception path and the success
path — both scores lie in [0, 100] (the confidence score read as 0
where the source dict omits the key), and the analysis score equals
`min(100, confidence × 1.2)`; on the success path the source's
2-decimal rounding is exact because the confidence is an integer. -/
theorem C7_scores_in_range (libs : Bool) (decoded : Option ImgShape)
    (circles : Option (List (ℤ × ℤ × ℤ))) (contours : List Contour)
    (filename : String) (jitter : ℤ) :
    let r := analyze_otolith_image libs decoded circles contours filename jitter
    0 ≤ r.analysis_score ∧ r.analysis_score ≤ 100 ∧
    0 ≤ r.confidence_score.getD 0 ∧ r.confidence_score.getD 0 ≤ 100 ∧
    r.analysis_score = min 100 (r.confidence_score.getD 0 * (6 / 5)) := by
  intro r
  cases libs
  · simp [r, analyze_otolith_image]
  · cases decoded with
    | none => simp [r, analyze_otolith_image]
    | some img =>
      cases hg : analyze_growth_patterns (detect_growth_rings circles) with
      | error e => simp [r, analyze_otolith_image, hg]
      | ok ga =>
        set c : ℕ := calculate_confidence (detect_growth_rings circles)
          (calculate_otolith_measurements contours) (img.height, img.width, 3) with hc
        have hc100 : c ≤ 100 := by rw [hc]; unfold calculate_confidence; exact min_le_left _ _
        have hcq : round2 (c : ℚ) = (c : ℚ) :=
          round2_eq_self _ (100 * (c : ℤ)) (by push_cast; ring)
        have hmin : round2 (min 100 ((c : ℚ) * (6 / 5))) = min 100 ((c : ℚ) * (6 / 5)) := by
          rcases le_total ((c : ℚ) * (6 / 5)) 100 with h | h
          · rw [min_eq_right h]
            exact round2_eq_self _ (120 * (c : ℤ)) (by push_cast; ring)
          · rw [min_eq_left h]
            exact round2_eq_self _ 10000 (by norm_num)
        have h0 : (0 : ℚ) ≤ (c : ℚ) * (6 / 5) := by positivity
        have e1 : r.analysis_score = min 100 ((c : ℚ) * (6 / 5)) := by
          show (analyze_otolith_image true (some img) circles contours filename
            jitter).analysis_score = _
          simp only [analyze_otolith_image, hg, reduceIte]
          rw [← hc, hmin]
        have e2 : r.confidence_score = some (c : ℚ) := by
          show (analyze_otolith_image true (some img) circles contours filename
            jitter).confidence_score = _
          simp only [analyze_otolith_image, hg, reduceIte]
          rw [← hc, hcq]
        refine ⟨?_, ?_, ?_, ?_, ?_⟩
        · rw [e1]; exact le_min (by norm_num) h0
        · rw [e1]; exact min_le_left _ _
        · rw [e2]; simp
        · rw [e2]; simpa using hc100
        · rw [e1, e2]; rfl

/-- C8 (amended): for every ring list with at least 2 rings and
positive average spacing, the growth-consistency value equals
`round2((1 - spacingStdDev / averageSpacing) * 100)` with NO lower
clamp: it is bounded above by 100 but, unlike the claimed
`clamp01` form, it can be negative (see the counterexample). -/
theorem C8_amended_consistency_formula (rings : List GrowthRing)
    (h2 : 2 ≤ rings.length) (ha : 0 < avgSpacing rings) :
    gcOf (analyze_growth_patterns rings) =
      round2R ((1 - Real.sqrt ((pvar (ringSpacings rings) : ℚ) : ℝ) /
        ((avgSpacing rings : ℚ) : ℝ)) * 100) ∧
    gcOf (analyze_growth_patterns rings) ≤ 100 := by
  have hnl : ¬ rings.length < 2 := not_lt.mpr h2
  have hguard : ¬ ((ringSpacings rings).length = 1 ∧ avgSpacing rings = 0) := by
    rintro ⟨-, h0⟩
    exact absurd h0 (ne_of_gt ha)
  have e : gcOf (analyze_growth_patterns rings) =
      round2R ((1 - Real.sqrt ((pvar (ringSpacings rings) : ℚ) : ℝ) /
        ((avgSpacing rings : ℚ) : ℝ)) * 100) := by
    unfold analyze_growth_patterns
    rw [if_neg hnl, if_neg hguard]
    unfold gcOf
    rw [if_pos ha]
  refine ⟨e, ?_⟩
  rw [e]
  have haR : (0 : ℝ) < ((avgSpacing rings : ℚ) : ℝ) := by exact_mod_cast ha
  have hq : (0 : ℝ) ≤ Real.sqrt ((pvar (ringSpacings rings) : ℚ) : ℝ) /
      ((avgSpacing rings : ℚ) : ℝ) := by positivity
  have hx : (1 - Real.sqrt ((pvar (ringSpacings rings) : ℚ) : ℝ) /
      ((avgSpacing rings : ℚ) : ℝ)) * 100 ≤ ((100 : ℤ) : ℝ) := by
    push_cast
    nlinarith
  have := round2R_le _ 100 hx
  calc round2R _ ≤ ((100 * 100 : ℤ) : ℝ) / 100 := this
  _ = 100 := by norm_num

/-- C8 witness: rings at radii [10, 20, 30, 40] satisfy both
hypotheses, and their consistency value respects the upper bound. -/
theorem C8_witness :
    2 ≤ ringsC5.length ∧ 0 < avgSpacing ringsC5 ∧
    gcOf (analyze_growth_patterns ringsC5) ≤ 100 := by
  have h2 : 2 ≤ ringsC5.length := by norm_num [ringsC5]
  have ha : 0 < avgSpacing ringsC5 := by
    simp [avgSpacing, ringSpacings, ringsC5, ringAt]
    norm_num
  exact ⟨h2, ha, (C8_amended_consistency_formula ringsC5 h2 ha).2⟩

/-- C8 counterexample: for rings whose spacings are [0, 0, 0, 0, 5]
(mean 1, population standard deviation 2), the code's unclamped formula
yields `(1 - 2/1) * 100 = -100`, a negative consistency value —
refuting the claim that the value equals the nonnegative
`clamp01(1 - std/avg) * 100`. -/
theorem C8_counterexample : gcOf (analyze_growth_patterns ringsC8) < 0 := by
  have hsp : ringSpacings ringsC8 = [0, 0, 0, 0, 5] := by
    simp [ringSpacings, ringsC8, ringAt]
    norm_num
  have ha : avgSpacing ringsC8 = 1 := by
    rw [avgSpacing, hsp]
    norm_num
  have hv : pvar (ringSpacings ringsC8) = 4 := by
    rw [hsp]
    norm_num [pvar]
  have hnl : ¬ ringsC8.length < 2 := by norm_num [ringsC8]
  have hguard : ¬ ((ringSpacings ringsC8).length = 1 ∧ avgSpacing ringsC8 = 0) := by
    rw [hsp, ha]
    norm_num
  have hpos : 0 < avgSpacing ringsC8 := by rw [ha]; norm_num
  have e : gcOf (analyze_growth_patterns ringsC8) =
      round2R ((1 - Real.sqrt ((pvar (ringSpacings ringsC8) : ℚ) : ℝ) /
        ((avgSpacing ringsC8 : ℚ) : ℝ)) * 100) := by
    unfold analyze_growth_patterns
    rw [if_neg hnl, if_neg hguard]
    unfold gcOf
    rw [if_pos hpos]
  rw [e, hv, ha]
  have h4 : ((4 : ℚ) : ℝ) = (2 : ℝ) ^ 2 := by norm_num
  rw [h4, Real.sqrt_sq (by norm_num)]
  have hval : (1 - (2 : ℝ) / ((1 : ℚ) : ℝ)) * 100 = ((-100 : ℤ) : ℝ) := by
    push_cast
    ring
  rw [hval]
  unfold round2R
  rw [show (100 : ℝ) * ((-100 : ℤ) : ℝ) = ((-10000 : ℤ) : ℝ) by push_cast; ring,
    round_intCast]
  norm_num

/-- C9 counterexample: on a single 4-point contour, the fallback
outline has `aspect_ratio = 1`, not 0 — refuting the claim that every
field of the no-ellipse result is zero. -/
theorem C9_counterexample :
    (calculate_otolith_measurements [contourC9]).aspect = 1 ∧ (1 : ℚ) ≠ 0 := by
  constructor
  · rfl
  · norm_num

/-- C9 (amended): whenever the selected largest contour has fewer than
5 boundary points, or no contour is found, ellipse fitting is skipped
and the fallback outline is returned: area, perimeter, major axis,
minor axis, circularity, center and orientation all zero, and
`aspect_ratio = 1` (not zero). -/
theorem C9_amended_fallback (contours : List Contour)
    (h : ∀ c ∈ selectLargest contours, c.npoints < 5) :
    calculate_otolith_measurements contours = fallbackMeasurements := by
  rcases hs : selectLargest contours with - | lc
  · unfold calculate_otolith_measurements
    rw [hs]
  · have hn : lc.npoints < 5 := h lc (by simp [hs])
    unfold calculate_otolith_measurements
    rw [hs]
    simp only [if_neg (by omega : ¬ 5 ≤ lc.npoints)]

/-- C9 witness: the single 4-point contour satisfies the hypothesis and
yields the fallback outline. -/
theorem C9_witness :
    (∀ c ∈ selectLargest [contourC9], c.npoints < 5) ∧
    calculate_otolith_measurements [contourC9] = fallbackMeasurements := by
  have h : ∀ c ∈ selectLargest [contourC9], c.npoints < 5 := by
    intro c hc
    simp [selectLargest] at hc
    rw [← hc]
    norm_num [contourC9]
  exact ⟨h, C9_amended_fallback [contourC9] h⟩

/-- C10: two rings with equal radii give the single spacing 0, the
integer-zero std fallback, and an unguarded `0 / 0.0` division:
`analyze_growth_patterns` raises `ZeroDivisionError` (the `Except.error`
branch), and only the orchestrator's top-level handler contains it,
turning the whole analysis into an error-shaped result with
`analysis_score = 0`. -/
theorem C10_zero_division_contained :
    analyze_growth_patterns ringsC10 = Except.error "float division by zero" ∧
    (analyze_otolith_image true (some ⟨600, 600⟩) (some [(0, 0, 7), (5, 5, 7)]) []
      "otolith.png" 0).error = some "Otolith analysis failed: float division by zero" ∧
    (analyze_otolith_image true (some ⟨600, 600⟩) (some [(0, 0, 7), (5, 5, 7)]) []
      "otolith.png" 0).analysis_score = 0 := by
  have h1 : analyze_growth_patterns ringsC10 = Except.error "float division by zero" := by
    simp [analyze_growth_patterns, ringsC10, ringAt, ringSpacings, avgSpacing]
  have hdet : detect_growth_rings (some [(0, 0, 7), (5, 5, 7)]) =
      [mkRing (0, 0, 7), mkRing (5, 5, 7)] := by
    simp [detect_growth_rings, List.insertionSort, List.orderedInsert, ringLe, mkRing]
  have h2 : analyze_growth_patterns (detect_growth_rings (some [(0, 0, 7), (5, 5, 7)])) =
      Except.error "float division by zero" := by
    rw [hdet]
    simp [analyze_growth_patterns, mkRing, ringSpacings, avgSpacing]
  refine ⟨h1, ?_, ?_⟩ <;>
    simp [analyze_otolith_image, h2]

end Otolith
